import Mathlib

/-!
Verification of the vobsidian note-generation engine.

The Python sources (`vobsidian/common.py`,
`vobsidian/interactive/make_daily_note.py`,
`vobsidian/interactive/make_tripit_note.py`) are shallowly embedded below.
Strings manipulated by the merge engine are modelled as `List Char`;
datetimes are modelled as wall-clock seconds (`Int`) paired with an optional
UTC-offset tag (`Option Int`, `none` = naive), which is faithful because the
source only ever compares datetimes carrying the same tzinfo, and every
datetime it constructs has zero microseconds.
-/

/-- `isPre p s` decides whether `p` is a leading segment of `s`
(used to model Python `str.startswith` and as the regex-scan primitive). -/
def isPre : List Char → List Char → Bool
  | [], _ => true
  | _ :: _, [] => false
  | p :: ps, c :: cs => p == c && isPre ps cs

/-- `containsSub p s` decides whether `p` occurs contiguously inside `s`
(models Python `in` / `str.find` success). -/
def containsSub (p s : List Char) : Bool :=
  (List.range (s.length + 1)).any (fun i => isPre p (s.drop i))

/-- All positions of `s` at which `p` starts (models scanning for every
occurrence of a literal pattern). -/
def occurrences (p s : List Char) : List Nat :=
  (List.range (s.length + 1)).filter (fun i => isPre p (s.drop i))

/-- Fuel-indexed worker for `replaceAll`; fuel `≥ s.length` always suffices
because every step consumes at least one character of `s`. -/
def replaceAllAux (pat rep : List Char) : Nat → List Char → List Char
  | _, [] => []
  | 0, s => s
  | Nat.succ n, c :: s =>
    if (!pat.isEmpty) && isPre pat (c :: s) then
      rep ++ replaceAllAux pat rep n (s.drop (pat.length - 1))
    else
      c :: replaceAllAux pat rep n s

/-- Model of Python `str.replace(pat, rep)` for a non-empty `pat`:
every non-overlapping occurrence, scanned left to right, is replaced. -/
def replaceAll (pat rep s : List Char) : List Char :=
  replaceAllAux pat rep s.length s

/-- The literal `"## Notes"` heading both merge regexes open with. -/
def notesOpen : List Char := "## Notes".toList

/-- Closing boundary of the daily-note regex `(## Notes.+)\n## Tasks`. -/
def sepTasks : List Char := "\n## Tasks".toList

/-- Closing boundary of the trip-note regex `(## Notes.+)\n\n# Bookings`. -/
def sepBookings : List Char := "\n\n# Bookings".toList

/-- Model of `re.findall(r'(## Notes' + sep-specific close + r')', content,
re.DOTALL)` for the two patterns `(## Notes.+)\n## Tasks` and
`(## Notes.+)\n\n# Bookings`.  The engine matches at the leftmost position
`i` where `## Notes` occurs and some occurrence `j` of the closing boundary
leaves the `.+` non-empty (`j ≥ i + 9`); the greedy `.+` extends the capture
to the last such `j`.  Because the first match already swallows every later
closing boundary, `findall` returns at most one capture. -/
def reFindallNotes (sep content : List Char) : List (List Char) :=
  match (occurrences notesOpen content).filter
      (fun i => (occurrences sep content).any
        (fun j => i + notesOpen.length + 1 ≤ j)) with
  | [] => []
  | i :: _ =>
    match ((occurrences sep content).filter
        (fun j => i + notesOpen.length + 1 ≤ j)).getLast? with
    | some j => [(content.drop i).take (j - i)]
    | none => []

/-- Model of the daily-note merge (make_daily_note.py lines 88–93):
`existing_notes = re.findall(r'(## Notes.+)\n## Tasks', content, re.DOTALL)`,
`assert len(existing_notes) == 1`, then
`txt.replace('## Notes', existing_notes[0])`.  The failed assert is an
uncaught `AssertionError`, modelled as `Except.error`. -/
def mergeDaily (fresh existing : List Char) : Except String (List Char) :=
  match reFindallNotes sepTasks existing with
  | [r] => Except.ok (replaceAll notesOpen r fresh)
  | rs => Except.error ("Invalid number of note sections = " ++ toString rs.length)

/-- Model of the trip-note merge (make_tripit_note.py lines 190–199):
`found = re.findall(r'(## Notes.+)\n\n# Bookings', content, re.DOTALL)`;
`existing_notes = found[0] if found else ''`; then
`txt.replace('## Notes', existing_notes)`.  Note: no error is ever raised;
a missing region silently becomes the empty string. -/
def mergeTrip (fresh existing : List Char) : List Char :=
  match reFindallNotes sepBookings existing with
  | r :: _ => replaceAll notesOpen r fresh
  | [] => replaceAll notesOpen [] fresh

/-- Outcome of writing one note: either the file content written, or a
skip report (path exists and `--overwrite` absent). -/
inductive NoteResult where
  | wrote : List Char → NoteResult
  | skipped : NoteResult
deriving DecidableEq

/-- Model of the write portion of `build_note_for_date`
(make_daily_note.py lines 84–99).  `fresh` is the fully rendered text
(assembled in memory before this point), `existing` the current file
content if the path exists.  No write happens on the error path: the
`assert` sits inside the read block, before `fnote.open('wt')`. -/
def processNote (fresh : List Char) (existing : Option (List Char))
    (overwrite : Bool) : Except String NoteResult :=
  match existing with
  | some content =>
    if overwrite then (mergeDaily fresh content).map NoteResult.wrote
    else Except.ok NoteResult.skipped
  | none => Except.ok (NoteResult.wrote fresh)

/-- One daily note to produce: its rendered text, the current file content
at its path (if any), and the overwrite flag. -/
structure NoteJob where
  fresh : List Char
  existing : Option (List Char)
  overwrite : Bool
deriving DecidableEq

/-- Model of the `build_notes` loop (make_daily_note.py lines 106–111):
notes are processed in order and there is no `try`/`except`, so the first
uncaught exception terminates the loop.  Returns the results of the notes
actually processed plus the terminating error, if any. -/
def runBatch : List NoteJob → List NoteResult × Option String
  | [] => ([], none)
  | j :: rest =>
    match processNote j.fresh j.existing j.overwrite with
    | Except.error e => ([], some e)
    | Except.ok r =>
      match runBatch rest with
      | (rs, e) => (r :: rs, e)

/-- Model of a Python `datetime`: wall-clock seconds (within its own
timezone) plus an optional UTC-offset tag; `tz = none` models a naive
datetime.  The source only compares datetimes carrying the same tzinfo
(or naive with naive), for which instant order equals wall-clock order,
and never constructs a datetime with non-zero microseconds. -/
structure PyDT where
  secs : Int
  tz : Option Int
deriving DecidableEq

/-- Days-from-civil-date conversion (proleptic Gregorian), used to map the
`(year, month, day, hour, minute[, second])` components the source feeds to
`datetime(...)` / `datetime.fromisoformat` onto a linear axis. -/
def daysFromCivil (y m d : Int) : Int :=
  let yAdj := if m ≤ 2 then y - 1 else y
  let era := yAdj / 400
  let yoe := yAdj - era * 400
  let mp := if m > 2 then m - 3 else m + 9
  let doy := (153 * mp + 2) / 5 + d - 1
  let doe := yoe * 365 + yoe / 4 - yoe / 100 + doy
  era * 146097 + doe - 719468

/-- Wall-clock seconds of a civil datetime. -/
def civilSecs (y m d hh mi ss : Int) : Int :=
  (daysFromCivil y m d * 1440 + hh * 60 + mi) * 60 + ss

/-- Zero-padded two-digit rendering of a minute count (`%M`). -/
def pad2 (n : Nat) : String :=
  if n < 10 then "0" ++ toString n else toString n

/-- Model of `DefaultEvent.convert_time` with its default format
`'%-I:%M%p'` (make_daily_note events never set show_day/show_year):
12-hour clock without leading zero, zero-padded minutes, `AM`/`PM`. -/
def convert_time (t : PyDT) : String :=
  let m := ((t.secs % 86400) / 60).toNat
  let hh := m / 60
  let mm := m % 60
  let h12 := if hh % 12 = 0 then 12 else hh % 12
  toString h12 ++ ":" ++ pad2 mm ++ (if hh < 12 then "AM" else "PM")

/-- Model of `common.link_relative`: `'[[#{heading}]]'.format(heading=...)`. -/
def link_relative (heading : String) : String :=
  "[[#" ++ heading ++ "]]"

/-- UTF-8 bytes of a character, as used by `urllib.parse.quote_plus` when
percent-encoding. -/
def utf8Bytes (c : Char) : List Nat :=
  let n := c.toNat
  if n < 0x80 then [n]
  else if n < 0x800 then [0xC0 + n / 0x40, 0x80 + n % 0x40]
  else if n < 0x10000 then
    [0xE0 + n / 0x1000, 0x80 + (n / 0x40) % 0x40, 0x80 + n % 0x40]
  else
    [0xF0 + n / 0x40000, 0x80 + (n / 0x1000) % 0x40,
     0x80 + (n / 0x40) % 0x40, 0x80 + n % 0x40]

/-- Uppercase hexadecimal digit, for percent-escapes. -/
def hexDigit (n : Nat) : Char :=
  if n < 10 then Char.ofNat (48 + n) else Char.ofNat (55 + n)

/-- Characters `urllib.parse.quote_plus` leaves unescaped
(ASCII letters, digits, `_.-~`). -/
def quoteSafe (c : Char) : Bool :=
  c.isAlpha || c.isDigit || c = '_' || c = '.' || c = '-' || c = '~'

/-- Per-character encoding of `urllib.parse.quote_plus`: safe characters
pass through, a space becomes `+`, anything else is percent-encoded
byte-wise (UTF-8, uppercase hex). -/
def quotePlusChar (c : Char) : List Char :=
  if quoteSafe c then [c]
  else if c = ' ' then ['+']
  else (utf8Bytes c).foldr
    (fun b acc => '%' :: hexDigit (b / 16) :: hexDigit (b % 16) :: acc) []

/-- Model of `urllib.parse.quote_plus` on a whole string. -/
def quotePlus (s : String) : String :=
  ((s.toList.map quotePlusChar).flatten).asString

/-- Model of `common.get_map_query`:
`urllib.parse.urlencode(dict(api=1, query=' '.join(args)))` appended to the
Google-Maps search URL; `urlencode` quote-pluses the joined query. -/
def get_map_query (args : List String) : String :=
  "https://www.google.com/maps/search/?api=1&query=" ++
    quotePlus (String.intercalate " " args)

/-- Python `str.startswith` on Lean strings. -/
def strStartsWith (p s : String) : Bool :=
  isPre p.toList s.toList

/-- Model of `common.link_location`: `None` renders empty; a value starting
with `'http'` becomes `[link](value)`; anything else becomes a Markdown
link to the generated map-search URL. -/
def link_location (location : Option String) : String :=
  match location with
  | none => ""
  | some loc =>
    if strStartsWith "http" loc then "[link](" ++ loc ++ ")"
    else "[" ++ loc ++ "](" ++ get_map_query [loc] ++ ")"

/-- Model of `common.DefaultEvent` (dataclass field order
`start, end, summary, location`); `end` is a Lean keyword, hence `end_`. -/
structure DefaultEvent where
  start : PyDT
  end_ : PyDT
  summary : String
  location : Option String
deriving DecidableEq

/-- Model of `DefaultEvent.format`: one display string per declared field,
in declaration order, dispatching on the field-role sets
(`start`/`end` time fields, `summary` relative-link, `location`
location-link). -/
def DefaultEvent.format (e : DefaultEvent) : List String :=
  [convert_time e.start, convert_time e.end_,
   link_relative e.summary, link_location e.location]

/-- Model of the row-collection loop of `common.make_event_table`
(lines 85–91): `seen` starts empty; an event whose `summary` is in `seen`
is skipped; otherwise `link_relative(e.summary)` is added to `seen` and
`e.format()` appended to the rows.  (The pytablewriter serialization of the
resulting value matrix is not modelled.) -/
def make_event_table_rows (ignore_duplicates : Bool)
    (seen : List String) : List DefaultEvent → List (List String)
  | [] => []
  | e :: rest =>
    if ignore_duplicates && seen.contains e.summary then
      make_event_table_rows ignore_duplicates seen rest
    else
      DefaultEvent.format e ::
        make_event_table_rows ignore_duplicates
          (link_relative e.summary :: seen) rest

/-- One `(concat, year, month, day, hour, minute, _)` tuple as delivered by
the iCloud API before `fix_dates` converts it (the first and last components
are discarded by the unpacking). -/
structure RawTuple where
  year : Int
  month : Int
  day : Int
  hour : Int
  minute : Int
deriving DecidableEq

/-- Model of one key's conversion in `make_daily_note.fix_dates`
(lines 114–118): `datetime(year, month, day, hour, minute,
tzinfo=tzlocal.get_localzone())` — seconds and microseconds zero, and the
local timezone (UTC offset `localOff`) attached, so the result is aware. -/
def fix_date (localOff : Int) (t : RawTuple) : PyDT :=
  { secs := civilSecs t.year t.month t.day t.hour t.minute 0
    tz := some localOff }

/-- A calendar event dict after `fix_dates`: the keys the rest of
make_daily_note reads (`title`, `location`, `localStartDate`,
`localEndDate`; the other four converted date keys are never read again). -/
structure CalEvent where
  title : String
  location : Option String
  localStartDate : PyDT
  localEndDate : PyDT
deriving DecidableEq

/-- A raw iCloud event before `fix_dates`: the date keys hold tuples. -/
structure RawAppleEvent where
  title : String
  location : Option String
  localStartDate : RawTuple
  localEndDate : RawTuple
deriving DecidableEq

/-- `fix_dates` applied to one raw event (converting the date keys the
rest of the program reads). -/
def fix_event (localOff : Int) (e : RawAppleEvent) : CalEvent :=
  { title := e.title
    location := e.location
    localStartDate := fix_date localOff e.localStartDate
    localEndDate := fix_date localOff e.localEndDate }

/-- Model of `make_daily_note.convert_apple_events`:
`AppleEvent(summary=e['title'], start=e['localStartDate'],
end=e['localEndDate'], location=e.get('location', None))`
(`AppleEvent` is `DefaultEvent` unchanged). -/
def convert_apple_events (events : List CalEvent) : List DefaultEvent :=
  events.map (fun e =>
    { start := e.localStartDate
      end_ := e.localEndDate
      summary := e.title
      location := e.location })

/-- Model of `dt.replace(hour=0, minute=0, second=0, microsecond=0)`:
floor the wall clock to midnight of the same civil day, keeping tzinfo. -/
def dayStart (t : PyDT) : PyDT :=
  { secs := t.secs / 86400 * 86400, tz := t.tz }

/-- Model of `(a - b).days`: Python `timedelta.days` is the floor of the
difference in seconds over 86400, and `Int` division by a positive
denominator is a floor. -/
def daysBetween (a b : PyDT) : Int :=
  (a.secs - b.secs) / 86400

/-- The `is_today` test of `build_note_for_date` (line 70):
`event['localStartDate'].replace(hour=0, ...) <= date`. -/
def isTodayB (date : PyDT) (e : CalEvent) : Bool :=
  decide ((dayStart e.localStartDate).secs ≤ date.secs)

/-- Model of the classification loop of `build_note_for_date`
(lines 67–74): each event goes to `events_today` when its day-start is
`≤ date`, otherwise it is appended to the
`events_upcoming[(start - date).days]` bucket; the second component lists
the upcoming events in iteration order, each tagged with its bucket key. -/
def splitEvents (date : PyDT) :
    List CalEvent → List CalEvent × List (Int × CalEvent)
  | [] => ([], [])
  | e :: rest =>
    let p := splitEvents date rest
    if isTodayB date e then (e :: p.1, p.2)
    else (p.1, (daysBetween e.localStartDate date, e) :: p.2)

/-- The events of one `defaultdict` bucket, in insertion order. -/
def bucketEvents (date : PyDT) (events : List CalEvent) (k : Int) :
    List CalEvent :=
  ((splitEvents date events).2.filter (fun p => p.1 = k)).map Prod.snd

/-- Model of `make_daily_note.date_is_within_window` (lines 102–103),
verbatim: `x >= start and end <= end` — note the self-comparison in the
second conjunct. -/
def date_is_within_window (x startD endD : PyDT) : Bool :=
  decide (startD.secs ≤ x.secs) && decide (endD.secs ≤ endD.secs)

/-- The per-date event filter of `build_notes` (line 111):
`[e for e in events if date_is_within_window(e['localStartDate'], date,
end_date)]`. -/
def windowFilter (events : List CalEvent) (date endDate : PyDT) :
    List CalEvent :=
  events.filter (fun e => date_is_within_window e.localStartDate date endDate)

/-- Model of `TEMPLATE_AGENDA.format(...)` (make_daily_note lines 13–39,
76–82): the stripped template literal with its five placeholders
substituted. -/
def assembleAgenda (today today_long due events_today events_upcoming :
    String) : String :=
  "# Agenda for " ++ today_long ++
  "\n\n## Notes\n\n\n## Tasks\n\nOutstanding\n```tasks\nnot done\ndue before " ++
  due ++ "\n```\n\nFinished\n```tasks\ndone on " ++ today ++
  "\n```\n\n## Today\n\n" ++ events_today ++ "\n\n## Upcoming\n\n" ++
  events_upcoming

/-- A TripIt `DateTime` sub-object as consumed by `make_iso_datetime`:
the components of its `date` (`YYYY-MM-DD`) and `time` (`HH:MM:SS`)
fields.  Neither field carries a UTC offset. -/
structure TripitDT where
  y : Int
  m : Int
  d : Int
  hh : Int
  mi : Int
  ss : Int
deriving DecidableEq

/-- Model of `make_tripit_note.make_iso_datetime` (lines 119–120):
`datetime.fromisoformat(dt['date'] + 'T' + dt['time'])`.  The concatenated
ISO string contains no offset suffix, so `fromisoformat` returns a naive
datetime (`tzinfo=None`), modelled as `tz = none`. -/
def make_iso_datetime (t : TripitDT) : PyDT :=
  { secs := civilSecs t.y t.m t.d t.hh t.mi t.ss
    tz := none }

/-- Model of the `TripitEvent` dataclass (make_tripit_note lines 38–49):
`DefaultEvent` extended with `type` and `price`.  `price` is
`Option String` because Python stores `None` there when a lodging's
`total_cost` was forced to `None` by `force_keys`. -/
structure TripEvent where
  start : PyDT
  end_ : PyDT
  summary : String
  location : Option String
  type : String
  price : Option String
deriving DecidableEq

/-- A `Segment` value, which the TripIt API delivers either as a single
object or as a list; `build_note_for_trip` normalizes a lone dict to a
one-element list before iterating. -/
def SegField (α : Type) : Type := Sum α (List α)

/-- The `if isinstance(obj['Segment'], dict): obj['Segment'] =
[obj['Segment']]` normalization. -/
def normSegs {α : Type} : SegField α → List α
  | Sum.inl s => [s]
  | Sum.inr l => l

/-- The fields of one flight `Segment` read by the event-building loop
(make_tripit_note lines 153–160; the extra country-code fields only feed
the abstracted text template). -/
structure AirSegment where
  start_city_name : String
  end_city_name : String
  start_airport_code : String
  marketing_airline : String
  marketing_flight_number : String
  StartDateTime : TripitDT
  EndDateTime : TripitDT
deriving DecidableEq

/-- An `AirObject` booking: its (possibly un-normalized) segments and its
optional `total_cost` key. -/
structure AirObj where
  Segment : SegField AirSegment
  total_cost : Option String

/-- The `header` string of a flight segment (line 155):
`'{start_city_name} to {end_city_name} on {marketing_airline}
{marketing_flight_number}'`. -/
def airHeader (s : AirSegment) : String :=
  s.start_city_name ++ " to " ++ s.end_city_name ++ " on " ++
    s.marketing_airline ++ " " ++ s.marketing_flight_number

/-- The flight event-building loop `for i, s in enumerate(obj['Segment'])`
(lines 153–160), carrying the running index `i`: each segment yields one
`TripitEvent` whose `price` is `obj.get('total_cost', 'unknown')` when
`i == 0` and the sentinel `'-'` otherwise. -/
def airEventsFrom (total_cost : Option String) :
    Nat → List AirSegment → List TripEvent
  | _, [] => []
  | i, s :: rest =>
    { summary := airHeader s
      start := make_iso_datetime s.StartDateTime
      end_ := make_iso_datetime s.EndDateTime
      location := some (s.start_city_name ++ " " ++ s.start_airport_code ++
        " Airport")
      type := "Flight"
      price := if i = 0 then some (total_cost.getD "unknown") else some "-"
    } :: airEventsFrom total_cost (i + 1) rest

/-- All events contributed by one `AirObject`. -/
def airEventsForObj (obj : AirObj) : List TripEvent :=
  airEventsFrom obj.total_cost 0 (normSegs obj.Segment)

/-- The fields of one rail `Segment` read by the event-building loop
(make_tripit_note lines 167–173). -/
structure RailSegment where
  start_station_name : String
  end_station_name : String
  service_class : String
  train_number : String
  StartDateTime : TripitDT
  EndDateTime : TripitDT
deriving DecidableEq

/-- A `RailObject` booking. -/
structure RailObj where
  Segment : SegField RailSegment
  total_cost : Option String

/-- The `header` string of a rail segment (line 168):
`'{} to {} ({}{})'.format(start_station_name, end_station_name,
service_class, train_number)`. -/
def railHeader (s : RailSegment) : String :=
  s.start_station_name ++ " to " ++ s.end_station_name ++ " (" ++
    s.service_class ++ s.train_number ++ ")"

/-- The rail event-building loop (lines 167–173), mirroring the flight
loop: `price` is the booking's `total_cost` (default `'unknown'`) on the
first segment and `'-'` on every later one. -/
def railEventsFrom (total_cost : Option String) :
    Nat → List RailSegment → List TripEvent
  | _, [] => []
  | i, s :: rest =>
    { summary := railHeader s
      start := make_iso_datetime s.StartDateTime
      end_ := make_iso_datetime s.EndDateTime
      location := some (s.start_station_name ++ " Station")
      type := "Train"
      price := if i = 0 then some (total_cost.getD "unknown") else some "-"
    } :: railEventsFrom total_cost (i + 1) rest

/-- All events contributed by one `RailObject`. -/
def railEventsForObj (obj : RailObj) : List TripEvent :=
  railEventsFrom obj.total_cost 0 (normSegs obj.Segment)

/-- The fields of a `LodgingObject` read by the event-building code
(make_tripit_note lines 130–146), after `force_keys(obj, ['total_cost',
'room_type'])` has made `total_cost` present (possibly `None`) and a
missing `Address` has been replaced by `{'address': None}`. -/
structure LodgingObj where
  display_name : String
  StartDateTime : TripitDT
  EndDateTime : TripitDT
  supplier_name : Option String
  address : Option String
  total_cost : Option String

/-- The event built for one lodging booking (lines 140–146).  `price` is
`obj.get('total_cost', 'unknown')`, but `force_keys` has already inserted
`None` for a missing cost, so the `'unknown'` default never fires and the
price is exactly `obj.total_cost`.  (When `supplier_name` is present but
the address is `None`, the source raises `TypeError` on `str + None`; that
crash is outside every claim and the model renders the address as `''`
there.) -/
def lodgingEventForObj (obj : LodgingObj) : TripEvent :=
  { summary := obj.display_name
    start := make_iso_datetime obj.StartDateTime
    end_ := make_iso_datetime obj.EndDateTime
    location := match obj.supplier_name with
      | some sn => some (sn ++ " " ++ obj.address.getD "")
      | none => none
    type := "Lodging"
    price := obj.total_cost }

/-- A trip's booking map (the `objects` dict handed to
`build_note_for_trip`): `keys` is the dict's key list in iteration order,
and the typed lists hold the bookings stored under the recognized keys.
`WeatherObject` and `TransportObject` entries are never rendered, so only
their keys matter. -/
structure TripObjects where
  keys : List String
  lodging : List LodgingObj
  air : List AirObj
  rail : List RailObj

/-- All `TripitEvent`s built for one trip, in construction order:
the lodging loop, then the flight loop, then the rail loop
(lines 130–173). -/
def tripEventsForTrip (o : TripObjects) : List TripEvent :=
  o.lodging.map lodgingEventForObj ++
    (o.air.map airEventsForObj).flatten ++
    (o.rail.map railEventsForObj).flatten

/-- Python `str.endswith` on Lean strings. -/
def strEndsWith (p s : String) : Bool :=
  isPre p.toList.reverse s.toList.reverse

/-- The recognized booking kinds, as listed in the membership test of
make_tripit_note line 176. -/
def knownKinds : List String :=
  ["LodgingObject", "WeatherObject", "AirObject", "RailObject",
   "TransportObject"]

/-- The unknown-kind scan of `build_note_for_trip` (lines 175–179):
some key of the booking map ends in `"Object"` and is not recognized. -/
def unknownKindPresent (keys : List String) : Bool :=
  keys.any (fun k => strEndsWith "Object" k && !(knownKinds.contains k))

/-- Model of `build_note_for_trip` from the unknown-kind scan through the
write (lines 175–205).  `txt` is the fully rendered note text (header plus
booking blocks, assembled in memory by lines 127–186 without touching the
filesystem); `existing` is the target file's content if it exists.  The
`raise NotImplementedError()` happens before `fnote.exists()` is ever
consulted, so an error means no write occurred. -/
def tripNoteAction (txt : List Char) (keys : List String)
    (existing : Option (List Char)) (overwrite : Bool) :
    Except String NoteResult :=
  if unknownKindPresent keys then Except.error "NotImplementedError"
  else
    match existing with
    | some content =>
      if overwrite then Except.ok (NoteResult.wrote (mergeTrip txt content))
      else Except.ok NoteResult.skipped
    | none => Except.ok (NoteResult.wrote txt)

/-- An existing daily note whose user-edited Notes region is
`"## Notes\nhi"`. -/
def exDaily : List Char := "## Notes\nhi\n## Tasks".toList

/-- The Notes region the merge extracts from `exDaily`. -/
def exDailyRegion : List Char := "## Notes\nhi".toList

/-- An existing trip note whose user-edited Notes region is
`"## Notes\nok"`. -/
def exTrip : List Char := "## Notes\nok\n\n# Bookings".toList

/-- The Notes region the merge extracts from `exTrip`. -/
def exTripRegion : List Char := "## Notes\nok".toList

/-- A freshly rendered text containing the `## Notes` placeholder. -/
def exFresh : List Char := "A ## Notes B".toList

/-- File content in which the Notes boundary pattern matches zero times. -/
def exNoNotes : List Char := "nothing here".toList

/-- A note job whose merge fails: the existing file has no Notes region
and overwrite is requested. -/
def exBadJob : NoteJob :=
  { fresh := exFresh, existing := some exNoNotes, overwrite := true }

/-- A note job that succeeds on its own: no existing file. -/
def exGoodJob : NoteJob :=
  { fresh := exFresh, existing := none, overwrite := false }

/-- A concrete TripIt datetime (2024-03-01 10:00:00). -/
def exTDT1 : TripitDT := ⟨2024, 3, 1, 10, 0, 0⟩

/-- A concrete TripIt datetime (2024-03-01 14:30:00). -/
def exTDT2 : TripitDT := ⟨2024, 3, 1, 14, 30, 0⟩

/-- First leg of the example two-segment flight booking. -/
def exSeg1 : AirSegment :=
  { start_city_name := "Boston", end_city_name := "Denver"
    start_airport_code := "BOS", marketing_airline := "UA"
    marketing_flight_number := "100"
    StartDateTime := exTDT1, EndDateTime := exTDT2 }

/-- Second leg of the example two-segment flight booking. -/
def exSeg2 : AirSegment :=
  { start_city_name := "Denver", end_city_name := "Seattle"
    start_airport_code := "DEN", marketing_airline := "UA"
    marketing_flight_number := "200"
    StartDateTime := exTDT2, EndDateTime := exTDT1 }

/-- A two-segment flight booking with `total_cost = "$500"`. -/
def exAir500 : AirObj :=
  { Segment := Sum.inr [exSeg1, exSeg2], total_cost := some "$500" }

/-- A booking map holding only the example flight booking. -/
def exTripObjs : TripObjects :=
  { keys := ["AirObject"], lodging := [], air := [exAir500], rail := [] }

/-- A concrete raw iCloud event (2024-01-03 09:00 – 10:00). -/
def exRawApple : RawAppleEvent :=
  { title := "standup", location := none
    localStartDate := ⟨2024, 1, 3, 9, 0⟩
    localEndDate := ⟨2024, 1, 3, 10, 0⟩ }

/-- Two calendar events with the same summary `"X"`, for the dedup check
(9:00–10:00 and 11:00–12:00 on the anchor day, timezone attached). -/
def exEvX1 : DefaultEvent :=
  { start := ⟨9 * 3600, some 0⟩, end_ := ⟨10 * 3600, some 0⟩
    summary := "X", location := none }

/-- Second event with the identical summary `"X"`. -/
def exEvX2 : DefaultEvent :=
  { start := ⟨11 * 3600, some 0⟩, end_ := ⟨12 * 3600, some 0⟩
    summary := "X", location := none }

/-- Midnight anchor date (day 0 of the model's axis, local timezone). -/
def exAnchor : PyDT := ⟨0, some 0⟩

/-- The anchor's window end with `--upcoming 7`: `date + timedelta(days=7)`. -/
def exWindowEnd : PyDT := ⟨7 * 86400, some 0⟩

/-- A calendar event starting 100 days after the anchor, i.e. far beyond
the 7-day window end. -/
def exFarEvent : CalEvent :=
  { title := "far", location := none
    localStartDate := ⟨100 * 86400, some 0⟩
    localEndDate := ⟨100 * 86400 + 3600, some 0⟩ }

/-- `isPre` is sound and complete for leading-segment decomposition. -/
theorem isPre_iff (p s : List Char) :
    isPre p s = true ↔ ∃ t, s = p ++ t := by
  induction p generalizing s with
  | nil => simp [isPre]
  | cons c cs ih =>
    cases s with
    | nil => simp [isPre]
    | cons d ds =>
      simp only [isPre, Bool.and_eq_true, beq_iff_eq]
      constructor
      · rintro ⟨h1, h2⟩
        obtain ⟨t, rfl⟩ := (ih ds).mp h2
        exact ⟨t, by rw [h1]; rfl⟩
      · rintro ⟨t, h⟩
        rw [List.cons_append] at h
        injection h with h1 h2
        exact ⟨h1.symm, (ih ds).mpr ⟨t, h2⟩⟩

/-- `containsSub` is sound and complete for contiguous occurrence. -/
theorem containsSub_iff (p s : List Char) :
    containsSub p s = true ↔ ∃ a b, s = a ++ p ++ b := by
  unfold containsSub
  rw [List.any_eq_true]
  constructor
  · rintro ⟨i, _, hpre⟩
    obtain ⟨t, ht⟩ := (isPre_iff p (s.drop i)).mp hpre
    refine ⟨s.take i, t, ?_⟩
    rw [List.append_assoc, ← ht, List.take_append_drop]
  · rintro ⟨a, b, rfl⟩
    refine ⟨a.length, List.mem_range.mpr ?_, ?_⟩
    · simp only [List.append_assoc, List.length_append]
      omega
    · rw [List.append_assoc, List.drop_left a (p ++ b)]
      exact (isPre_iff p (p ++ b)).mpr ⟨b, rfl⟩

/-- Replacement preserves an occurrence: if the nonempty pattern occurs in
`s`, the replacement text occurs in the rewritten string. -/
theorem replaceAllAux_keeps (p r : List Char) :
    ∀ (fuel : Nat) (s : List Char), s.length ≤ fuel → p ≠ [] →
      (∃ a b, s = a ++ p ++ b) →
      ∃ a b, replaceAllAux p r fuel s = a ++ r ++ b := by
  intro fuel
  induction fuel with
  | zero =>
    rintro s hs hp ⟨a, b, habs⟩
    rw [List.eq_nil_of_length_eq_zero (Nat.le_zero.mp hs)] at habs
    rcases List.append_eq_nil.mp habs.symm with ⟨h1, -⟩
    exact absurd (List.append_eq_nil.mp h1).2 hp
  | succ n ih =>
    rintro s hs hp ⟨a, b, habs⟩
    cases s with
    | nil =>
      rcases List.append_eq_nil.mp habs.symm with ⟨h1, -⟩
      exact absurd (List.append_eq_nil.mp h1).2 hp
    | cons c t =>
      by_cases hc : ((!p.isEmpty) && isPre p (c :: t)) = true
      · refine ⟨[], replaceAllAux p r n (t.drop (p.length - 1)), ?_⟩
        simp [replaceAllAux, hc]
      · have hne : (!p.isEmpty) = true := by
          cases p with
          | nil => exact absurd rfl hp
          | cons _ _ => rfl
        have hnp : isPre p (c :: t) = false := by
          rw [hne] at hc
          simpa using hc
        cases a with
        | nil =>
          simp only [List.nil_append] at habs
          have hyes : isPre p (c :: t) = true :=
            (isPre_iff p (c :: t)).mpr ⟨b, habs⟩
          rw [hyes] at hnp
          simp at hnp
        | cons a0 a' =>
          have hlen : t.length ≤ n := by
            simp only [List.length_cons] at hs
            omega
          simp only [List.cons_append, List.append_assoc] at habs
          injection habs with h1 h2
          obtain ⟨a2, b2, hout⟩ :=
            ih t hlen hp ⟨a', b, by rw [List.append_assoc]; exact h2⟩
          refine ⟨c :: a2, b2, ?_⟩
          simp [replaceAllAux, hc, hout]

/-- If the nonempty `pat` occurs in `s`, then after
`replaceAll pat rep s` the replacement `rep` occurs in the result. -/
theorem replaceAll_keeps (p r s : List Char) (hp : p ≠ [])
    (h : containsSub p s = true) :
    containsSub r (replaceAll p r s) = true := by
  obtain ⟨a, b, hab⟩ := (containsSub_iff p s).mp h
  obtain ⟨a2, b2, h2⟩ :=
    replaceAllAux_keeps p r s.length s le_rfl hp ⟨a, b, hab⟩
  exact (containsSub_iff r _).mpr ⟨a2, b2, h2⟩

/-- The greedy findall model returns at most one capture. -/
theorem reFindallNotes_length_le_one (sep content : List Char) :
    (reFindallNotes sep content).length ≤ 1 := by
  unfold reFindallNotes
  split
  · simp
  · split <;> simp

/-- An occurrence inside a middle segment survives flanking context. -/
theorem containsSub_of_inner (p m x y : List Char)
    (h : containsSub p m = true) : containsSub p (x ++ m ++ y) = true := by
  obtain ⟨a, b, rfl⟩ := (containsSub_iff p m).mp h
  exact (containsSub_iff _ _).mpr
    ⟨x ++ a, b ++ y, by simp [List.append_assoc]⟩

/-- Every assembled daily-note text contains the `## Notes` placeholder:
it is part of the template literal, whatever the substituted values are. -/
theorem assembleAgenda_contains_notes (t tl du e1 e2 : String) :
    containsSub notesOpen (assembleAgenda t tl du e1 e2).toList = true := by
  have key := containsSub_of_inner notesOpen
    ("\n\n## Notes\n\n\n## Tasks\n\nOutstanding\n```tasks\nnot done\ndue before ").toList
    ("# Agenda for ".toList ++ tl.toList)
    (du.toList ++ "\n```\n\nFinished\n```tasks\ndone on ".toList ++
      t.toList ++ "\n```\n\n## Today\n\n".toList ++ e1.toList ++
      "\n\n## Upcoming\n\n".toList ++ e2.toList)
    (by decide)
  have harr : (assembleAgenda t tl du e1 e2).toList =
      ("# Agenda for ".toList ++ tl.toList) ++
        ("\n\n## Notes\n\n\n## Tasks\n\nOutstanding\n```tasks\nnot done\ndue before ").toList ++
        (du.toList ++ "\n```\n\nFinished\n```tasks\ndone on ".toList ++
          t.toList ++ "\n```\n\n## Today\n\n".toList ++ e1.toList ++
          "\n\n## Upcoming\n\n".toList ++ e2.toList) := by
    simp [assembleAgenda, String.toList, String.data_append, List.append_assoc]
  rw [harr]
  exact key

/-- Claim C1 (round-trip merge): whenever the boundary pattern finds
exactly one (possibly user-modified) Notes region `r` in the existing file
and the freshly rendered text contains the `## Notes` placeholder, both
merge paths output exactly the fresh render with the placeholder replaced
by `r` — so the machine-generated sections come from the fresh render and
the modified region `r` survives byte-for-byte as a contiguous block of
the written output. -/
theorem round_trip_merge_preserves_notes (fresh existing r : List Char) :
    (reFindallNotes sepTasks existing = [r] →
      containsSub notesOpen fresh = true →
      mergeDaily fresh existing =
          Except.ok (replaceAll notesOpen r fresh) ∧
        containsSub r (replaceAll notesOpen r fresh) = true) ∧
    (reFindallNotes sepBookings existing = [r] →
      containsSub notesOpen fresh = true →
      mergeTrip fresh existing = replaceAll notesOpen r fresh ∧
        containsSub r (mergeTrip fresh existing) = true) := by
  constructor
  · intro hreg hfresh
    refine ⟨?_, replaceAll_keeps notesOpen r fresh (by decide) hfresh⟩
    unfold mergeDaily
    rw [hreg]
  · intro hreg hfresh
    have hmt : mergeTrip fresh existing = replaceAll notesOpen r fresh := by
      unfold mergeTrip
      rw [hreg]
    exact ⟨hmt, by
      rw [hmt]
      exact replaceAll_keeps notesOpen r fresh (by decide) hfresh⟩

/-- Witness for C1 at concrete files: the user-modified regions
`"## Notes\nhi"` / `"## Notes\nok"` are extracted and preserved. -/
theorem round_trip_merge_preserves_notes_witness :
    (mergeDaily exFresh exDaily =
        Except.ok (replaceAll notesOpen exDailyRegion exFresh) ∧
      containsSub exDailyRegion
        (replaceAll notesOpen exDailyRegion exFresh) = true) ∧
    (mergeTrip exFresh exTrip = replaceAll notesOpen exTripRegion exFresh ∧
      containsSub exTripRegion (mergeTrip exFresh exTrip) = true) :=
  ⟨(round_trip_merge_preserves_notes exFresh exDaily exDailyRegion).1
      (by decide) (by decide),
    (round_trip_merge_preserves_notes exFresh exTrip exTripRegion).2
      (by decide) (by decide)⟩

/-- Claim C2 counterexample: on the trip-note merge path, an existing file
in which the Notes boundary pattern matches zero times does not raise any
error — the overwrite completes, splicing in the empty string (which
deletes the `## Notes` heading from the output). -/
theorem trip_merge_missing_notes_no_error :
    reFindallNotes sepBookings exNoNotes = [] ∧
      tripNoteAction exFresh ["LodgingObject"] (some exNoNotes) true =
        Except.ok (NoteResult.wrote ("A  B".toList)) :=
  ⟨by decide, rfl⟩

/-- Claim C2 amended: the malformed-note check is asymmetric.  On the
daily path a zero-match file makes the merge fail (the `assert` raises);
on the trip path a zero-match file is silently merged against the empty
region; and on both paths the greedy pattern can never match more than
once, so the more-than-one case is vacuous. -/
theorem notes_boundary_error_behavior (fresh content : List Char) :
    (reFindallNotes sepTasks content = [] →
      mergeDaily fresh content =
        Except.error "Invalid number of note sections = 0") ∧
    (reFindallNotes sepBookings content = [] →
      mergeTrip fresh content = replaceAll notesOpen [] fresh) ∧
    (reFindallNotes sepTasks content).length ≤ 1 ∧
    (reFindallNotes sepBookings content).length ≤ 1 := by
  refine ⟨?_, ?_, reFindallNotes_length_le_one _ _,
    reFindallNotes_length_le_one _ _⟩
  · intro h
    unfold mergeDaily
    rw [h]
    rfl
  · intro h
    unfold mergeTrip
    rw [h]

/-- Witness for the amended C2 at a file with no Notes region. -/
theorem notes_boundary_error_behavior_witness :
    mergeDaily exFresh exNoNotes =
        Except.error "Invalid number of note sections = 0" ∧
      mergeTrip exFresh exNoNotes = replaceAll notesOpen [] exFresh :=
  ⟨(notes_boundary_error_behavior exFresh exNoNotes).1 (by decide),
    (notes_boundary_error_behavior exFresh exNoNotes).2.1 (by decide)⟩

/-- Claim C3 (code bug): with duplicate suppression on, two events with
the identical summary `"X"` still produce two rows.  The loop tests the
raw `e.summary` for membership but stores `link_relative(e.summary)` in
`seen`, so `"X"` is never found in a set holding `"[[#X]]"` and the
deduplication never fires. -/
theorem dedup_two_rows_for_equal_summaries :
    make_event_table_rows true [] [exEvX1, exEvX2] =
        [exEvX1.format, exEvX2.format] ∧
      (make_event_table_rows true [] [exEvX1, exEvX2]).length = 2 :=
  ⟨rfl, rfl⟩

/-- Claim C4: a booking map holding any key that ends in `"Object"` and is
not among the five recognized kinds makes `build_note_for_trip` raise
`NotImplementedError`; the raise precedes the existence check and the
write, so no file is touched. -/
theorem unknown_kind_raises_before_write (txt : List Char)
    (keys : List String) (existing : Option (List Char)) (overwrite : Bool)
    (k : String) (hk : k ∈ keys) (hobj : strEndsWith "Object" k = true)
    (hunk : knownKinds.contains k = false) :
    tripNoteAction txt keys existing overwrite =
      Except.error "NotImplementedError" := by
  have hpres : unknownKindPresent keys = true := by
    unfold unknownKindPresent
    rw [List.any_eq_true]
    exact ⟨k, hk, by rw [hobj, hunk]; rfl⟩
  unfold tripNoteAction
  rw [hpres]
  rfl

/-- Witness for C4: a `"FooObject"` key triggers the error. -/
theorem unknown_kind_raises_before_write_witness :
    tripNoteAction exFresh ["FooObject"] none false =
      Except.error "NotImplementedError" :=
  unknown_kind_raises_before_write exFresh ["FooObject"] none false
    "FooObject" (by decide) (by decide) (by decide)

/-- Claim C5 (code bug): the window filter's upper bound is a no-op.
`date_is_within_window(x, start, end)` evaluates `end <= end`, which is
always true, so a record starting 100 days after the anchor passes the
7-day window filter of `build_notes` and is handed to the note builder. -/
theorem window_upper_bound_is_noop :
    date_is_within_window exFarEvent.localStartDate exAnchor exWindowEnd =
        true ∧
      windowFilter [exFarEvent] exAnchor exWindowEnd = [exFarEvent] ∧
      exWindowEnd.secs ≤ exFarEvent.localStartDate.secs :=
  ⟨by decide, by decide, by decide⟩

/-- The `events_today` side of the classification loop collects exactly
the records whose day-start is `≤` the anchor, in input order. -/
theorem splitEvents_today_eq (date : PyDT) (es : List CalEvent) :
    (splitEvents date es).1 = es.filter (isTodayB date) := by
  induction es with
  | nil => rfl
  | cons e rest ih =>
    cases h : isTodayB date e <;>
      simp [splitEvents, List.filter_cons, h, ih]

/-- The upcoming side of the classification loop collects, in input order,
exactly the records whose day-start is after the anchor. -/
theorem splitEvents_upcoming_eq (date : PyDT) (es : List CalEvent) :
    (splitEvents date es).2.map Prod.snd =
      es.filter (fun e => !isTodayB date e) := by
  induction es with
  | nil => rfl
  | cons e rest ih =>
    cases h : isTodayB date e <;>
      simp [splitEvents, List.filter_cons, h, ih]

/-- Each upcoming defaultdict bucket holds, in input order, exactly the
non-today records with that integer day-offset. -/
theorem bucketEvents_eq_filter (date : PyDT) (es : List CalEvent) (k : Int) :
    bucketEvents date es k =
      es.filter (fun e =>
        !isTodayB date e &&
          decide (daysBetween e.localStartDate date = k)) := by
  induction es with
  | nil => rfl
  | cons e rest ih =>
    unfold bucketEvents at ih ⊢
    cases h : isTodayB date e
    · by_cases hk : daysBetween e.localStartDate date = k <;>
        simp [splitEvents, List.filter_cons, h, hk, ih]
    · simp [splitEvents, List.filter_cons, h, ih]

/-- Claim C6 (bucket partition): relative to an anchor `date`, the
classification loop of `build_note_for_date` sends each record to exactly
one bucket — `events_today` iff its day-start is `≤ date`, otherwise the
upcoming bucket for its day-offset `(start - date).days` — the buckets
together are a permutation of the input (each record exactly once), and
each bucket preserves the input's relative order (it is a sublist of the
input). -/
theorem bucket_partition (date : PyDT) (es : List CalEvent) (k : Int) :
    (splitEvents date es).1 = es.filter (isTodayB date) ∧
    bucketEvents date es k =
      es.filter (fun e =>
        !isTodayB date e &&
          decide (daysBetween e.localStartDate date = k)) ∧
    List.Perm
      ((splitEvents date es).1 ++ (splitEvents date es).2.map Prod.snd)
      es ∧
    ((splitEvents date es).1).Sublist es ∧
    (bucketEvents date es k).Sublist es := by
  refine ⟨splitEvents_today_eq date es, bucketEvents_eq_filter date es k,
    ?_, ?_, ?_⟩
  · rw [splitEvents_today_eq, splitEvents_upcoming_eq]
    exact List.filter_append_perm _ es
  · rw [splitEvents_today_eq]
    exact List.filter_sublist es
  · rw [bucketEvents_eq_filter]
    exact List.filter_sublist es

/-- One flight event per segment. -/
theorem airEventsFrom_length (tc : Option String) (i : Nat)
    (segs : List AirSegment) :
    (airEventsFrom tc i segs).length = segs.length := by
  induction segs generalizing i with
  | nil => rfl
  | cons s rest ih => simp [airEventsFrom, ih]

/-- From a non-zero running index on, every flight event carries the
sentinel price. -/
theorem airEventsFrom_tail_prices (tc : Option String)
    (segs : List AirSegment) :
    ∀ i, i ≠ 0 →
      (airEventsFrom tc i segs).map TripEvent.price =
        segs.map (fun _ => some "-") := by
  induction segs with
  | nil => intro i _; rfl
  | cons s rest ih =>
    intro i h
    simp [airEventsFrom, h, ih (i + 1) (Nat.succ_ne_zero i)]

/-- One rail event per segment. -/
theorem railEventsFrom_length (tc : Option String) (i : Nat)
    (segs : List RailSegment) :
    (railEventsFrom tc i segs).length = segs.length := by
  induction segs generalizing i with
  | nil => rfl
  | cons s rest ih => simp [railEventsFrom, ih]

/-- From a non-zero running index on, every rail event carries the
sentinel price. -/
theorem railEventsFrom_tail_prices (tc : Option String)
    (segs : List RailSegment) :
    ∀ i, i ≠ 0 →
      (railEventsFrom tc i segs).map TripEvent.price =
        segs.map (fun _ => some "-") := by
  induction segs with
  | nil => intro i _; rfl
  | cons s rest ih =>
    intro i h
    simp [railEventsFrom, h, ih (i + 1) (Nat.succ_ne_zero i)]

/-- Claim C7 (multi-leg cost attribution): a Flight or Rail booking yields
exactly one `TripitEvent` per (normalized) segment; the first event's
price is the booking's `total_cost` (`'unknown'` when the key is absent)
and every later event's price is the sentinel `'-'`.  In particular the
two-segment `$500` example booking yields prices `["$500", "-"]`. -/
theorem multileg_cost_attribution (a : AirObj) (rl : RailObj) :
    (airEventsForObj a).length = (normSegs a.Segment).length ∧
    (airEventsForObj a).map TripEvent.price =
      (match normSegs a.Segment with
       | [] => []
       | _ :: rest =>
         some (a.total_cost.getD "unknown") :: rest.map (fun _ => some "-")) ∧
    (railEventsForObj rl).length = (normSegs rl.Segment).length ∧
    (railEventsForObj rl).map TripEvent.price =
      (match normSegs rl.Segment with
       | [] => []
       | _ :: rest =>
         some (rl.total_cost.getD "unknown") ::
           rest.map (fun _ => some "-")) ∧
    (airEventsForObj exAir500).map TripEvent.price =
      [some "$500", some "-"] := by
  refine ⟨airEventsFrom_length _ _ _, ?_, railEventsFrom_length _ _ _, ?_,
    by decide⟩
  · cases hseg : normSegs a.Segment with
    | nil => simp [airEventsForObj, hseg, airEventsFrom]
    | cons s rest =>
      simp [airEventsForObj, hseg, airEventsFrom,
        airEventsFrom_tail_prices a.total_cost rest 1 one_ne_zero]
  · cases hseg : normSegs rl.Segment with
    | nil => simp [railEventsForObj, hseg, railEventsFrom]
    | cons s rest =>
      simp [railEventsForObj, hseg, railEventsFrom,
        railEventsFrom_tail_prices rl.total_cost rest 1 one_ne_zero]

/-- Claim C8 counterexample: in a two-note batch whose first note has a
malformed existing file (overwrite requested, no Notes region), the whole
run aborts with the assertion error and produces no results — even though
the second note, processed alone, would have been written.  The remaining
notes of the run are therefore not attempted. -/
theorem batch_aborts_on_first_error :
    runBatch [exBadJob, exGoodJob] =
        ([], some "Invalid number of note sections = 0") ∧
      processNote exGoodJob.fresh exGoodJob.existing exGoodJob.overwrite =
        Except.ok (NoteResult.wrote exFresh) :=
  ⟨by decide, rfl⟩

/-- Claim C8 amended: a fatal error while processing one note leaves that
note unwritten (its render and merge happen wholly in memory, before the
write), but the uncaught exception terminates the batch loop: no later
note in the same run is attempted. -/
theorem fatal_error_stops_batch (j : NoteJob) (rest : List NoteJob)
    (e : String)
    (h : processNote j.fresh j.existing j.overwrite = Except.error e) :
    runBatch (j :: rest) = ([], some e) := by
  simp [runBatch, h]

/-- Witness for the amended C8: the malformed note kills a batch. -/
theorem fatal_error_stops_batch_witness :
    runBatch [exBadJob] = ([], some "Invalid number of note sections = 0") :=
  fatal_error_stops_batch exBadJob [] _ rfl

/-- Every flight event ever built has naive start/end timestamps: they
come from `make_iso_datetime`, which parses an offset-free ISO string. -/
theorem airEventsFrom_naive (tc : Option String) (segs : List AirSegment) :
    ∀ (i : Nat) (te : TripEvent), te ∈ airEventsFrom tc i segs →
      te.start.tz = none ∧ te.end_.tz = none := by
  induction segs with
  | nil => intro i te h; simp [airEventsFrom] at h
  | cons s rest ih =>
    intro i te h
    rw [airEventsFrom, List.mem_cons] at h
    rcases h with rfl | h
    · exact ⟨rfl, rfl⟩
    · exact ih (i + 1) te h

/-- Every rail event ever built has naive start/end timestamps. -/
theorem railEventsFrom_naive (tc : Option String) (segs : List RailSegment) :
    ∀ (i : Nat) (te : TripEvent), te ∈ railEventsFrom tc i segs →
      te.start.tz = none ∧ te.end_.tz = none := by
  induction segs with
  | nil => intro i te h; simp [railEventsFrom] at h
  | cons s rest ih =>
    intro i te h
    rw [railEventsFrom, List.mem_cons] at h
    rcases h with rfl | h
    · exact ⟨rfl, rfl⟩
    · exact ih (i + 1) te h

/-- Claim C9 counterexample: the trip-aggregator path constructs
`TripitEvent`s whose timestamps are naive (`tzinfo = None`), not
timezone-aware: `make_iso_datetime` concatenates `date + 'T' + time`,
which carries no UTC offset, and nothing re-attaches a timezone. -/
theorem tripevents_are_naive :
    (tripEventsForTrip exTripObjs).map
        (fun e => (e.start.tz, e.end_.tz)) =
      [(none, none), (none, none)] := by decide

/-- Claim C9 amended: the invariant holds only on the daily-calendar path
(`fix_dates` attaches the local timezone to every converted timestamp);
every event built on the trip-aggregator path is naive. -/
theorem timezone_awareness_amended (localOff : Int)
    (raws : List RawAppleEvent) (o : TripObjects) :
    ((convert_apple_events (raws.map (fix_event localOff))).all
        (fun ev =>
          ev.start.tz == some localOff && ev.end_.tz == some localOff)) =
      true ∧
    ((tripEventsForTrip o).all
        (fun te => te.start.tz == none && te.end_.tz == none)) = true := by
  constructor
  · rw [List.all_eq_true]
    intro ev hev
    rw [convert_apple_events, List.map_map, List.mem_map] at hev
    obtain ⟨r, -, rfl⟩ := hev
    simp [Function.comp, fix_event, fix_date]
  · rw [List.all_eq_true]
    intro te hte
    unfold tripEventsForTrip at hte
    rcases List.mem_append.mp hte with h | h
    · rcases List.mem_append.mp h with h2 | h2
      · obtain ⟨obj, -, rfl⟩ := List.mem_map.mp h2
        rfl
      · obtain ⟨l, hl, hm⟩ := List.mem_flatten.mp h2
        obtain ⟨obj, -, rfl⟩ := List.mem_map.mp hl
        obtain ⟨h1, h2⟩ := airEventsFrom_naive obj.total_cost _ 0 te hm
        simp [h1, h2]
    · obtain ⟨l, hl, hm⟩ := List.mem_flatten.mp h
      obtain ⟨obj, -, rfl⟩ := List.mem_map.mp hl
      obtain ⟨h1, h2⟩ := railEventsFrom_naive obj.total_cost _ 0 te hm
      simp [h1, h2]

/-- Claim C10 (location rendering): `None` renders as the empty string, a
location already starting with `http` renders as an external link, and any
other location renders as a Markdown map-search link whose URL contains
the `quote_plus`-encoded raw text. -/
theorem location_rendering (s : String)
    (h : strStartsWith "http" s = false) :
    link_location none = "" ∧
    link_location (some "https://x") = "[link](https://x)" ∧
    link_location (some "Paris") =
      "[Paris](https://www.google.com/maps/search/?api=1&query=Paris)" ∧
    link_location (some s) =
      "[" ++ s ++ "](" ++
        ("https://www.google.com/maps/search/?api=1&query=" ++
          quotePlus s) ++ ")" ∧
    containsSub (quotePlus s).toList (link_location (some s)).toList =
      true := by
  have hform : link_location (some s) =
      "[" ++ s ++ "](" ++
        ("https://www.google.com/maps/search/?api=1&query=" ++
          quotePlus s) ++ ")" := by
    rw [link_location]
    rw [h]
    rfl
  refine ⟨rfl, by decide, by decide, hform, ?_⟩
  rw [hform]
  apply (containsSub_iff _ _).mpr
  refine ⟨("[" ++ s ++ "](" ++
    "https://www.google.com/maps/search/?api=1&query=").toList,
    ")".toList, ?_⟩
  simp [String.toList, String.data_append, List.append_assoc]

/-- Witness for C10 at the location `"Paris"` of the spec's example. -/
theorem location_rendering_witness :
    strStartsWith "http" "Paris" = false ∧
      containsSub (quotePlus "Paris").toList
        (link_location (some "Paris")).toList = true :=
  ⟨by decide, (location_rendering "Paris" (by decide)).2.2.2.2⟩
